import Mathlib

/-!
Verification of the AI copilot FastAPI backend
(`src/fastapi_backend/src/api/schemas.py`, `src/fastapi_backend/src/api/main.py`,
`src/fastapi_backend/src/services/chat.py`) against its natural-language
specification.

The Python code is shallowly embedded: JSON payloads become the inductive
`JValue`, Python dicts become association lists with first-match lookup,
pydantic model validation becomes explicit checking functions, and the HTTP
route becomes a function from the payload (plus the environment: the upstream
API key and the network outcome) to an HTTP outcome.  All definitions are
computable and are translated statement by statement from the source files.
-/

/-- A JSON value, the shape of every payload the backend handles.  Python
floats are carried by their decimal representation only (no float arithmetic
occurs anywhere in the translated code: floats are only type-tested and
stringified by the alias shim). -/
inductive JValue where
  | null
  | bool (b : Bool)
  | int (n : Int)
  | float (r : String)
  | str (s : String)
  | arr (xs : List JValue)
  | obj (fields : List (String × JValue))

/-- A Python dict with string keys, as an association list (JSON objects have
unique keys; lookup returns the first match). -/
abbrev JObj := List (String × JValue)

/-- Key lookup, Python `d[k]` / `d.get(k)`. -/
def getKey (d : JObj) (k : String) : Option JValue :=
  List.lookup k d

/-- Python `k in d`. -/
def hasKey (d : JObj) (k : String) : Bool :=
  (getKey d k).isSome

/-- Python `{**d, k: v}`: a fresh dict equal to `d` with key `k` bound to `v`
(replacing an existing binding in place, else appended).  The original dict is
not modified. -/
def dictSet : JObj → String → JValue → JObj
  | [], k, v => [(k, v)]
  | (k0, v0) :: rest, k, v =>
      if k0 == k then (k0, v) :: rest else (k0, v0) :: dictSet rest k v

/-- Python `isinstance(v, (str, int, float))`.  Note `bool` is a subclass of
`int` in Python, so booleans pass this test. -/
def isScalar : JValue → Bool
  | .str _ => true
  | .int _ => true
  | .float _ => true
  | .bool _ => true
  | _ => false

/-- Python `str(v)` for the scalar values the shim and the legacy branch
coerce. -/
def pyStr : JValue → String
  | .str s => s
  | .int n => toString n
  | .float r => r
  | .bool true => "True"
  | .bool false => "False"
  | _ => ""

/-- The ASCII whitespace characters Python `str.strip()` removes.  (Python
also strips `\v`, `\f` and Unicode whitespace; no string in this development
contains those, so the model keeps the four common ones.) -/
def isSpaceChar (c : Char) : Bool :=
  c == ' ' || c == '\t' || c == '\n' || c == '\r'

/-- Python `s.strip()`, at the code-point level. -/
def pyTrim (s : String) : String :=
  String.mk (((s.data.dropWhile isSpaceChar).reverse.dropWhile isSpaceChar).reverse)

/-- Python `s.rstrip()`, at the code-point level. -/
def pyTrimRight (s : String) : String :=
  String.mk ((s.data.reverse.dropWhile isSpaceChar).reverse)

/-- Python `s[:n]`: the first `n` code points. -/
def pyTake (s : String) (n : Nat) : String :=
  String.mk (s.data.take n)

/-- ASCII lowering of one character (all inputs in this development are
ASCII, where Python `str.lower()` agrees). -/
def lowerChar (c : Char) : Char :=
  if 'A' ≤ c ∧ c ≤ 'Z' then Char.ofNat (c.toNat + 32) else c

/-- Python `s.lower()`. -/
def pyLower (s : String) : String :=
  String.mk (s.data.map lowerChar)

/-- Does `pat` occur at the head of the character list? -/
def leadMatch : List Char → List Char → Bool
  | [], _ => true
  | _ :: _, [] => false
  | p :: ps, c :: cs => p == c && leadMatch ps cs

/-- Does `pat` occur anywhere in the character list? -/
def occursIn (pat : List Char) : List Char → Bool
  | [] => leadMatch pat []
  | c :: cs => leadMatch pat (c :: cs) || occursIn pat cs

/-- Python substring membership `pat in s`. -/
def pyContains (s pat : String) : Bool :=
  occursIn pat.data s.data

/-- Python `s.startswith(p)`. -/
def pyStartsWith (s p : String) : Bool :=
  leadMatch p.data s.data

/-- Python `s.endswith(p)`. -/
def pyEndsWith (s p : String) : Bool :=
  leadMatch p.data.reverse s.data.reverse

/-- Python `s.startswith((p1, p2, ...))`. -/
def startsWithAny (s : String) (ps : List String) : Bool :=
  ps.any (fun p => pyStartsWith s p)

/-- Role vocabulary, `RoleEnum` in `schemas.py`. -/
inductive Role where
  | user
  | assistant
  | system
deriving DecidableEq, Repr

/-- Pydantic coercion of a JSON string into `RoleEnum`. -/
def parseRoleStr : String → Option Role
  | "user" => some Role.user
  | "assistant" => some Role.assistant
  | "system" => some Role.system
  | _ => none

/-- The `response_style` literal vocabulary of `ChatRequest`. -/
inductive Style where
  | plain
  | list
  | guided
deriving DecidableEq, Repr

/-- The raw string a `Style` value denotes (what `generate_reply` receives,
since `chat.py` takes `response_style: Optional[str]`). -/
def styleStr : Option Style → Option String
  | none => none
  | some Style.plain => some "plain"
  | some Style.list => some "list"
  | some Style.guided => some "guided"

/-- A validated chat message (`Message` in `schemas.py`): a role and a content
string of 1 to 5000 characters (the length bounds are enforced by the
construction functions below, as pydantic does). -/
structure Message where
  role : Role
  content : String
deriving DecidableEq, Repr

/-- Pydantic construction `Message(role=..., content=...)`: `role` must coerce
into the enumeration, and `content` must satisfy
`constr(min_length=1, max_length=5000)`.  `constr` is used without
`strip_whitespace`, so no trimming happens here: the bounds are on the raw
string. -/
def Message.construct (role : String) (content : String) : Except Unit Message :=
  match parseRoleStr role with
  | none => Except.error ()
  | some r =>
      if content.length < 1 ∨ content.length > 5000 then Except.error ()
      else Except.ok { role := r, content := content }

/-- A validated chat request (`ChatRequest` in `schemas.py`).  `stream`
defaults to `False` (so `some false`, with `none` standing for an explicit
JSON null), `response_style` defaults to `none`. -/
structure ChatRequest where
  messages : List Message
  stream : Option Bool
  response_style : Option Style
deriving DecidableEq, Repr

/-- The four failure sites of `normalize_to_chat_request` (each raises
`ValueError` in the source; the dynamic detail text is elided, the site is
kept). -/
inductive NormError where
  | notObject
  | invalidMessages
  | invalidLegacy
  | missingField
deriving DecidableEq, Repr

/-- Is an `Except` a success? -/
def exOk : Except NormError ChatRequest → Bool
  | Except.ok _ => true
  | Except.error _ => false

/-- Alias shim applied when neither `message` nor `messages` is present but
`query` is, with a scalar value (`schemas.py` lines 82-83): rebind to a fresh
dict with the stringified value under `message`. -/
def shimQuery (d : JObj) : JObj :=
  match getKey d "query" with
  | some q => if isScalar q then dictSet d "message" (JValue.str (pyStr q)) else d
  | none => d

/-- The compatibility shim of `schemas.py` lines 78-83: when neither
`message` nor `messages` is a key, a scalar `text` (else a scalar `query`)
value is rewritten, stringified, as `message`.  The rewrite builds a new dict
with `{**data, ...}`; the caller object is only read.  An `elif` follows the
`text` test, so a non-scalar `text` still lets a scalar `query` apply. -/
def shimAlias (d : JObj) : JObj :=
  if hasKey d "message" || hasKey d "messages" then d
  else
    match getKey d "text" with
    | some t =>
        if isScalar t then dictSet d "message" (JValue.str (pyStr t))
        else shimQuery d
    | none => shimQuery d

/-- The hand-written pre-checks of `schemas.py` lines 89-142 on the value
under `messages`: it must be a non-empty list, every entry must be a dict, and
every entry content must be a string that is non-blank after `strip()`.  All
the failure branches raise and land in the same `except` arm, so a `Bool`
captures them. -/
def preCheckMessages : Option JValue → Bool
  | some (JValue.arr l) =>
      !l.isEmpty &&
        l.all fun m =>
          match m with
          | JValue.obj mf =>
              match getKey mf "content" with
              | some (JValue.str c) => !(pyTrim c == "")
              | _ => false
          | _ => false
  | _ => false

/-- Pydantic field validation of one entry of `messages`: a dict whose `role`
string coerces into `RoleEnum` and whose `content` is a string within the
`constr(min_length=1, max_length=5000)` bounds (`Message.construct`). -/
def pyValidateMessage : JValue → Option Message
  | JValue.obj f =>
      (match getKey f "role", getKey f "content" with
       | some (JValue.str r), some (JValue.str c) => (Message.construct r c).toOption
       | _, _ => none)
  | _ => none

/-- Validate every entry of the `messages` list, failing if any entry fails. -/
def validateAll : List JValue → Option (List Message)
  | [] => some []
  | v :: vs =>
      match pyValidateMessage v, validateAll vs with
      | some m, some ms => some (m :: ms)
      | _, _ => none

/-- Pydantic validation of the required `messages` field: a JSON array of
valid message dicts. -/
def pyMessagesField : Option JValue → Option (List Message)
  | some (JValue.arr l) => validateAll l
  | _ => none

/-- Pydantic validation of the optional `stream: Optional[bool]` field:
absent defaults to `False`, JSON null gives `None`, a boolean passes.  (The
flag is inert; the lax scalar-to-bool coercions pydantic would additionally
accept are elided, as no payload in this development carries `stream`.) -/
def pyStreamField : Option JValue → Option (Option Bool)
  | none => some (some false)
  | some JValue.null => some none
  | some (JValue.bool b) => some (some b)
  | some _ => none

/-- Pydantic validation of
`response_style: Optional[Literal['list', 'plain', 'guided']]`: absent
defaults to `None`, JSON null gives `None`, one of the three literal strings
passes, and every other value is a validation error (pydantic `Literal`
rejects it; there is no silent defaulting). -/
def pyStyleField : Option JValue → Option (Option Style)
  | none => some none
  | some JValue.null => some none
  | some (JValue.str "plain") => some (some Style.plain)
  | some (JValue.str "list") => some (some Style.list)
  | some (JValue.str "guided") => some (some Style.guided)
  | some _ => none

/-- `ChatRequest.model_validate(data)` (`schemas.py` line 143): validate the
three declared fields of the dict; extra keys are ignored (pydantic default).
Any field failure is a `ValidationError`. -/
def pyValidateChatRequest (d : JObj) : Option ChatRequest :=
  match pyMessagesField (getKey d "messages"),
        pyStreamField (getKey d "stream"),
        pyStyleField (getKey d "response_style") with
  | some msgs, some st, some sty =>
      some { messages := msgs, stream := st, response_style := sty }
  | _, _, _ => none

/-- The `messages` branch of `normalize_to_chat_request` (`schemas.py` lines
86-147): the hand-written pre-checks, then `ChatRequest.model_validate`; any
`ValidationError` is re-raised as the branch `ValueError`. -/
def messagesBranch (d : JObj) : Except NormError ChatRequest :=
  if preCheckMessages (getKey d "messages") then
    match pyValidateChatRequest d with
    | some req => Except.ok req
    | none => Except.error NormError.invalidMessages
  else Except.error NormError.invalidMessages

/-- The legacy branch of `normalize_to_chat_request` (`schemas.py` lines
150-185): coerce int/float/bool to string, reject other non-strings, reject a
blank-after-strip value, validate the `constr(1..5000)` bounds of
`ChatRequestLegacy`, then build
`ChatRequest(messages=[Message(role=user, content=legacy.message)])` — note
the content is the value as given, not its trimmed form (`constr` does not
strip), and the constructor defaults `stream=False`, `response_style=None`. -/
def legacyBranch (d : JObj) : Except NormError ChatRequest :=
  match getKey d "message" with
  | none => Except.error NormError.missingField
  | some v =>
      match (match v with
             | JValue.str s => some s
             | JValue.int n => some (pyStr (JValue.int n))
             | JValue.float r => some (pyStr (JValue.float r))
             | JValue.bool b => some (pyStr (JValue.bool b))
             | _ => none) with
      | none => Except.error NormError.invalidLegacy
      | some s =>
          if pyTrim s == "" then Except.error NormError.invalidLegacy
          else if s.length < 1 ∨ s.length > 5000 then Except.error NormError.invalidLegacy
          else
            Except.ok
              { messages := [{ role := Role.user, content := s }]
                stream := some false
                response_style := none }

/-- `normalize_to_chat_request(data)` (`schemas.py` lines 56-188), with the
caller-visible object made explicit: the second component is the contents of
the object the caller passed, observed after the call.  The source contains no
statement that writes into `data` (the shim rebinds the local name to a fresh
dict built with `{**data, ...}`), so every exit pairs the result with the
unchanged input. -/
def normalize_to_chat_request (data : JValue) : Except NormError ChatRequest × JValue :=
  match data with
  | JValue.obj d =>
      let d1 := shimAlias d
      if hasKey d1 "messages" then (messagesBranch d1, JValue.obj d)
      else if hasKey d1 "message" then (legacyBranch d1, JValue.obj d)
      else (Except.error NormError.missingField, JValue.obj d)
  | other => (Except.error NormError.notObject, other)

/-- The normalized result alone (what the route consumes). -/
def normalizeResult (data : JValue) : Except NormError ChatRequest :=
  (normalize_to_chat_request data).1

/-- `MAX_INPUT_CHARS` of `chat.py`. -/
def MAX_INPUT_CHARS : Nat := 5000

/-- `MAX_RESPONSE_CHARS` of `chat.py`. -/
def MAX_RESPONSE_CHARS : Nat := 4000

/-- `DEFAULT_GREETING` of `chat.py`. -/
def DEFAULT_GREETING : String :=
  "Hi! I\u0027m your helpful AI Copilot. Ask me anything, and I\u0027ll provide a concise, friendly answer."

/-- `_openai_is_configured` of `chat.py`: Python truthiness of the
`OPENAI_API_KEY` setting (`none` models an unset variable; the empty string is
falsy). -/
def openaiIsConfigured : Option String → Bool
  | none => false
  | some s => !(s == "")

/-- The outcome of the single HTTP POST the upstream client issues, as the
surrounding `try` observes it: either `httpx` raises (transport/connection
error, or the 10-second client timeout), or a response arrives with a status
code and a parsed JSON body. -/
inductive NetOutcome where
  | exc
  | response (status : Nat) (body : JValue)

/-- `data.get("choices") or []` in `_call_openai`: the list under `choices`,
or `[]` when the key is missing or its value is not a list (a falsy non-list
gives `[]` via `or`; a truthy non-list raises on the later subscript/`.get`
and is swallowed by the `except` — both collapse to the sentinel, which the
empty list also produces here). -/
def choicesOf : JValue → List JValue
  | JValue.obj f =>
      (match getKey f "choices" with
       | some (JValue.arr l) => l
       | _ => [])
  | _ => []

/-- `choices[0].get("message") or {}` in `_call_openai`: the dict under
`message` of the first choice, else the empty dict (a non-dict first choice
raises on `.get` and is swallowed by the `except`; the empty dict produces the
same sentinel here). -/
def firstMessageOf : List JValue → JObj
  | JValue.obj mf :: _ =>
      (match getKey mf "message" with
       | some (JValue.obj g) => g
       | _ => [])
  | _ => []

/-- `message.get("content")` restricted to strings:
`if not isinstance(content, str)` fails for every other value. -/
def contentOf (m : JObj) : Option String :=
  match getKey m "content" with
  | some (JValue.str c) => some c
  | _ => none

/-- `_call_openai` of `chat.py` (lines 110-148): the sentinel `none` models
the Python `None` return.  The function is total — every failure mode
(unconfigured key, raised transport error or timeout, non-200 status, missing
or empty choice list, non-string or blank content) returns the sentinel
instead of propagating an exception.  The request payload built from the
conversation does not influence the outcome here; the response is the
environment's `net`. -/
def callOpenai (key : Option String) (net : NetOutcome) : Option String :=
  if !openaiIsConfigured key then none
  else
    match key with
    | none => none
    | some k =>
        if k == "" then none
        else
          match net with
          | NetOutcome.exc => none
          | NetOutcome.response status body =>
              if !(status == 200) then none
              else
                let choices := choicesOf body
                if choices.isEmpty then none
                else
                  match contentOf (firstMessageOf choices) with
                  | none => none
                  | some c =>
                      if pyTrim c == "" then none
                      else
                        let c := pyTrim c
                        let c :=
                          if c.length > MAX_RESPONSE_CHARS then pyTrimRight (pyTake c MAX_RESPONSE_CHARS)
                          else c
                        some c

/-- The backward scan of `_deterministic_fallback_reply` for the latest
`user`-role message. -/
def latestUserMsg (messages : List Message) : Option Message :=
  messages.reverse.find? fun m => m.role == Role.user

/-- `_deterministic_fallback_reply` of `chat.py` (lines 151-207), translated
branch by branch.  `respStyle` is the raw `Optional[str]` the source takes.
(`latest_user.content or ""` never differs from the content itself here, since
a `Message` content is a string.) -/
def fallbackReply (messages : List Message) (respStyle : Option String) : String :=
  if messages.isEmpty then DEFAULT_GREETING
  else
    match latestUserMsg messages with
    | none => DEFAULT_GREETING
    | some latest =>
        let userText := pyTrim latest.content
        let userText :=
          if userText.length > MAX_INPUT_CHARS then pyTrimRight (pyTake userText MAX_INPUT_CHARS) ++ "..."
          else userText
        if userText == "" then
          "I’m here to help. Could you share a bit more detail about what you need?"
        else
          let lower := pyLower userText
          let wantsList :=
            respStyle == some "list" ||
              (pyContains lower "example" || pyContains lower "examples" || pyContains lower "list")
          if pyContains lower "vegetable" || pyContains lower "vegetables" then
            if wantsList then
              "- Carrots\n- Broccoli\n- Spinach\n- Bell peppers\n- Cauliflower\n- Tomatoes\n- Cucumbers"
            else
              "Carrots, broccoli, spinach, bell peppers, cauliflower, tomatoes, cucumbers."
          else if pyContains lower "example" || pyContains lower "examples" ||
              pyContains lower "example of" || pyContains lower "examples of" then
            if wantsList then
              "- Example 1: A quick, healthy lunch: quinoa, roasted chickpeas, spinach, cherry tomatoes.\n- Example 2: Minimal Python function to add two numbers.\n- Example 3: Three bullet steps to get started on a task."
            else
              "Example: A quick healthy lunch—quinoa with roasted chickpeas, spinach, and cherry tomatoes."
          else if pyEndsWith lower "?" ||
              startsWithAny lower ["how", "what", "why", "where", "when", "help", "can you", "could you"] then
            if wantsList then
              "- Define the goal.\n- List 2–3 concrete steps.\n- Provide one small example."
            else if respStyle == some "guided" ||
                startsWithAny lower ["how", "help", "can you", "could you"] then
              "- Identify the goal.\n- Break the task into 2–4 clear steps.\n- Example: Show a minimal, concrete illustration."
            else
              "Define the goal, list 2–3 concrete steps, and add a small example."
          else
            "Outline your goal, list 2–3 concrete actions, and include one quick example."

/-- `generate_reply` of `chat.py` (lines 211-240): the upstream reply when it
is a string with non-blank `strip()`, else the deterministic fallback. -/
def generate_reply (key : Option String) (net : NetOutcome)
    (messages : List Message) (respStyle : Option String) : String :=
  match callOpenai key net with
  | some r => if pyTrim r == "" then fallbackReply messages respStyle else r
  | none => fallbackReply messages respStyle

/-- The outcome of one `POST /api/chat` request: a 200 with a reply body, or a
structured error envelope with a status and error code. -/
inductive HttpOutcome where
  | ok (reply : String)
  | err (status : Nat) (code : String)
deriving DecidableEq, Repr

/-- The value the route passes to `asyncio.wait_for` at `main.py` line 141:
`generate_reply` is a plain synchronous `def`, so the call has already run and
the argument is a plain `str` — never a coroutine, Task, or Future. -/
inductive AwaitArg where
  | plainStr (s : String)

/-- Awaiting `asyncio.wait_for(x, 13.0)`: asyncio requires an awaitable (a
coroutine, Task, or Future) and raises `TypeError` for a plain string, before
any timeout logic runs.  The route's `except Exception` arm (`main.py` line
162) receives that `TypeError`. -/
def awaitWaitFor : AwaitArg → Except Unit String
  | AwaitArg.plainStr _ => Except.error ()

/-- The `chat` route of `main.py` (lines 71-219): normalization failure maps
to the 400 `invalid_payload` envelope; then the route awaits
`asyncio.wait_for` on the synchronous `generate_reply` result, whose
`TypeError` the generic `except Exception` arm maps to the 502 `bad_gateway`
envelope; a successful await would return the 200 body. -/
def chatRoute (key : Option String) (net : NetOutcome) (body : JValue) : HttpOutcome :=
  match normalizeResult body with
  | Except.error _ => HttpOutcome.err 400 "invalid_payload"
  | Except.ok req =>
      match awaitWaitFor
          (AwaitArg.plainStr (generate_reply key net req.messages (styleStr req.response_style))) with
      | Except.error _ => HttpOutcome.err 502 "bad_gateway"
      | Except.ok reply => HttpOutcome.ok reply

/-- Reduction of the normalizer on a one-key legacy payload to its legacy
branch (the shim and the branch dispatch only inspect the literal keys). -/
theorem legacy_payload_to_branch (s : String) :
    normalizeResult (JValue.obj [("message", JValue.str s)])
      = legacyBranch [("message", JValue.str s)] := rfl

/-- The legacy branch on a string value, written as its two guards. -/
theorem legacyBranch_if_form (s : String) :
    legacyBranch [("message", JValue.str s)] =
      (if pyTrim s == "" then Except.error NormError.invalidLegacy
       else if s.length < 1 ∨ s.length > 5000 then Except.error NormError.invalidLegacy
       else Except.ok { messages := [{ role := Role.user, content := s }],
                        stream := some false, response_style := none }) := rfl

/-- C1: a valid messages payload normalizes successfully, yet the route
answers 502 `bad_gateway`, not 200: `main.py` awaits
`asyncio.wait_for(generate_reply(...), 13.0)` where `generate_reply` is a
synchronous function, so a plain string reaches `asyncio.wait_for`, the await
raises `TypeError`, and the generic `except Exception` arm returns the 502
envelope.  This contradicts the repository's own test
`test_chat_with_messages_shape_returns_200` and the specification's claim of
a 200 reply. -/
theorem claim_C1_route_await_bug :
    normalizeResult (JValue.obj [("messages",
        JValue.arr [JValue.obj [("role", JValue.str "user"), ("content", JValue.str "What is water?")]])])
      = Except.ok { messages := [{ role := Role.user, content := "What is water?" }],
                    stream := some false, response_style := none }
    ∧ chatRoute none NetOutcome.exc (JValue.obj [("messages",
        JValue.arr [JValue.obj [("role", JValue.str "user"), ("content", JValue.str "What is water?")]])])
      = HttpOutcome.err 502 "bad_gateway" := by
  refine ⟨?_, ?_⟩ <;> rfl

/-- C2 counterexample: at the scenario input (single user message
"What is water?", style plain, upstream unconfigured) the reply the code
computes does not contain "H₂O" — `_deterministic_fallback_reply` has no
literal-match rule for "what is water". -/
theorem claim_C2_cex :
    pyContains
      (generate_reply none NetOutcome.exc
        [{ role := Role.user, content := "What is water?" }] (some "plain")) "H₂O" = false := by
  rfl

/-- C2 amended: with the upstream key unconfigured, the fallback responder
has no water rule; the scenario input lands in the interrogative branch
(ends with a question mark, starts with "what") and returns the fixed
clarifying text, whatever the network would have answered. -/
theorem claim_C2_amended (net : NetOutcome) :
    generate_reply none net [{ role := Role.user, content := "What is water?" }] (some "plain")
      = "Define the goal, list 2–3 concrete steps, and add a small example." := by
  rfl

/-- C3 counterexample: on the legacy payload with value " hi " (non-blank
after trimming, within the length bound) normalization returns the message
content " hi " — the input string as given, which differs from its trimmed
form "hi".  The claim that the content equals the trimmed input is false. -/
theorem claim_C3_cex :
    normalizeResult (JValue.obj [("message", JValue.str " hi ")])
      = Except.ok { messages := [{ role := Role.user, content := " hi " }],
                    stream := some false, response_style := none }
    ∧ pyTrim " hi " = "hi"
    ∧ (" hi " : String) ≠ "hi" := by
  refine ⟨by rfl, by rfl, by decide⟩

/-- C3 amended: for every legacy payload whose string value is non-blank
after trimming and at most 5000 characters, normalization returns exactly one
user message whose content is the input string itself (trimming is only used
for the blank check, never applied to the stored content). -/
theorem claim_C3_amended (s : String) (h1 : pyTrim s ≠ "") (h2 : s.length ≤ 5000) :
    normalizeResult (JValue.obj [("message", JValue.str s)])
      = Except.ok { messages := [{ role := Role.user, content := s }],
                    stream := some false, response_style := none } := by
  have hs : s ≠ "" := fun hh => h1 (by rw [hh]; rfl)
  have hpos : 1 ≤ s.length := by
    rcases s with ⟨l⟩
    cases l with
    | nil => exact absurd rfl hs
    | cons a as => simp [String.length]
  have hb : ¬((pyTrim s == "") = true) := by simpa using h1
  have hlen : ¬(s.length < 1 ∨ s.length > 5000) := by omega
  rw [legacy_payload_to_branch, legacyBranch_if_form, if_neg hb, if_neg hlen]

/-- C3 witness: the round-trip instance of the spec, `normalize` on
message "hi". -/
theorem claim_C3_witness :
    normalizeResult (JValue.obj [("message", JValue.str "hi")])
      = Except.ok { messages := [{ role := Role.user, content := "hi" }],
                    stream := some false, response_style := none } :=
  claim_C3_amended "hi" (by decide) (by decide)

/-- C4 counterexample: an otherwise valid messages payload carrying
`response_style: "fancy"` makes normalization fail (pydantic `Literal`
rejects the value inside `ChatRequest.model_validate`, the branch re-raises
`ValueError`); it does not succeed with the style silently dropped. -/
theorem claim_C4_cex :
    normalizeResult (JValue.obj
        [("messages", JValue.arr [JValue.obj [("role", JValue.str "user"), ("content", JValue.str "hi")]]),
         ("response_style", JValue.str "fancy")])
      = Except.error NormError.invalidMessages := by
  rfl

/-- C4 amended: whenever a payload with a `messages` key carries a
`response_style` value that pydantic rejects (anything other than null,
"plain", "list" or "guided"), normalization fails; the style only defaults to
absent when the key is missing or null. -/
theorem claim_C4_amended (d : JObj) (v : JValue)
    (hm : hasKey d "messages" = true)
    (hv : getKey d "response_style" = some v)
    (hstyle : pyStyleField (some v) = none) :
    exOk (normalizeResult (JValue.obj d)) = false := by
  have hsh : shimAlias d = d := by
    unfold shimAlias
    rw [hm]
    simp
  have hval : pyValidateChatRequest d = none := by
    unfold pyValidateChatRequest
    rw [hv, hstyle]
    cases pyMessagesField (getKey d "messages") <;> cases pyStreamField (getKey d "stream") <;> rfl
  have hnorm : normalizeResult (JValue.obj d) = messagesBranch d := by
    unfold normalizeResult normalize_to_chat_request
    dsimp only
    rw [hsh, hm]
    rfl
  rw [hnorm]
  unfold messagesBranch
  by_cases hpc : preCheckMessages (getKey d "messages") = true
  · rw [if_pos hpc, hval]
    rfl
  · rw [if_neg hpc]
    rfl

/-- C4 witness: the amended claim at the concrete "fancy" payload. -/
theorem claim_C4_witness :
    exOk (normalizeResult (JValue.obj
        [("messages", JValue.arr [JValue.obj [("role", JValue.str "user"), ("content", JValue.str "hi")]]),
         ("response_style", JValue.str "fancy")])) = false :=
  claim_C4_amended
    [("messages", JValue.arr [JValue.obj [("role", JValue.str "user"), ("content", JValue.str "hi")]]),
     ("response_style", JValue.str "fancy")]
    (JValue.str "fancy") rfl rfl rfl

/-- C5 counterexample: a `Message` with whitespace-only content is accepted —
`constr(min_length=1, max_length=5000)` counts raw characters and performs no
trimming, so the single-space content (blank after trimming) constructs
successfully, contrary to the claim that it fails. -/
theorem claim_C5_cex :
    Message.construct "user" " " = Except.ok { role := Role.user, content := " " }
    ∧ pyTrim " " = "" := by
  refine ⟨by rfl, by rfl⟩

/-- C5 amended: constructing a `Message` fails exactly when the role is not
one of the three enumerated values, or the content is the empty string, or
the content exceeds 5000 characters; the bounds are on the untrimmed string,
so whitespace-only content of positive length is accepted. -/
theorem claim_C5_amended (role content : String) :
    (Message.construct role content = Except.error ())
      ↔ (parseRoleStr role = none ∨ content.length = 0 ∨ content.length > 5000) := by
  unfold Message.construct
  cases h : parseRoleStr role with
  | none => simp
  | some r =>
      simp only [h]
      by_cases hl : content.length < 1 ∨ content.length > 5000
      · rw [if_pos hl]
        simp only [reduceCtorEq, iff_true, false_or, true_iff]
        omega
      · rw [if_neg hl]
        simp only [reduceCtorEq, false_iff, false_or]
        omega

/-- C6: for every object payload with neither a `messages` nor a `message`
key, and whose `text` and `query` keys (if any) hold non-scalar values so the
alias shim does not apply, normalization fails at the missing-field site and
the route returns the 400 envelope with error code `invalid_payload`,
whatever the upstream environment is. -/
theorem claim_C6 (d : JObj) (key : Option String) (net : NetOutcome)
    (h1 : hasKey d "message" = false)
    (h2 : hasKey d "messages" = false)
    (h3 : ∀ v, getKey d "text" = some v → isScalar v = false)
    (h4 : ∀ v, getKey d "query" = some v → isScalar v = false) :
    normalizeResult (JValue.obj d) = Except.error NormError.missingField
    ∧ chatRoute key net (JValue.obj d) = HttpOutcome.err 400 "invalid_payload" := by
  have hq : shimQuery d = d := by
    unfold shimQuery
    cases hqv : getKey d "query" with
    | none => rfl
    | some v => dsimp only; rw [h4 v hqv]; simp
  have hsh : shimAlias d = d := by
    have hcond : (hasKey d "message" || hasKey d "messages") = false := by
      rw [h1, h2]; rfl
    unfold shimAlias
    rw [hcond, if_neg (by decide : ¬(false = true))]
    cases htv : getKey d "text" with
    | none => exact hq
    | some v => dsimp only; rw [h3 v htv]; simp [hq]
  have hnorm : normalizeResult (JValue.obj d) = Except.error NormError.missingField := by
    unfold normalizeResult normalize_to_chat_request
    dsimp only
    rw [hsh, h2, h1]
    rfl
  refine ⟨hnorm, ?_⟩
  unfold chatRoute
  rw [hnorm]

/-- C6 witness: the claim at the concrete payload holding only a `foo` key. -/
theorem claim_C6_witness :
    normalizeResult (JValue.obj [("foo", JValue.str "bar")]) = Except.error NormError.missingField
    ∧ chatRoute none NetOutcome.exc (JValue.obj [("foo", JValue.str "bar")])
        = HttpOutcome.err 400 "invalid_payload" :=
  claim_C6 [("foo", JValue.str "bar")] none NetOutcome.exc rfl rfl
    (fun _ h => nomatch h) (fun _ h => nomatch h)

/-- C7 counterexample: at the scenario input "Give me examples of vegetables"
with no style hint and upstream unconfigured, the fallback returns the
bulleted vegetable list, not the comma-joined sentence: the text itself
contains "examples", which makes `wants_list` true even without
`response_style == "list"`. -/
theorem claim_C7_cex :
    generate_reply none NetOutcome.exc
        [{ role := Role.user, content := "Give me examples of vegetables" }] none
      = "- Carrots\n- Broccoli\n- Spinach\n- Bell peppers\n- Cauliflower\n- Tomatoes\n- Cucumbers"
    ∧ ("- Carrots\n- Broccoli\n- Spinach\n- Bell peppers\n- Cauliflower\n- Tomatoes\n- Cucumbers" : String)
      ≠ "Carrots, broccoli, spinach, bell peppers, cauliflower, tomatoes, cucumbers." := by
  refine ⟨by rfl, by decide⟩

/-- C7 amended: the scenario payload normalizes to a single user message, and
with the upstream unconfigured the fallback vegetable rule fires in its list
branch (the prompt contains "examples"), so the reply is the bulleted list,
which does contain "Carrots". -/
theorem claim_C7_amended (net : NetOutcome) :
    normalizeResult (JValue.obj [("message", JValue.str "Give me examples of vegetables")])
      = Except.ok { messages := [{ role := Role.user, content := "Give me examples of vegetables" }],
                    stream := some false, response_style := none }
    ∧ generate_reply none net
        [{ role := Role.user, content := "Give me examples of vegetables" }] none
      = "- Carrots\n- Broccoli\n- Spinach\n- Bell peppers\n- Cauliflower\n- Tomatoes\n- Cucumbers"
    ∧ pyContains
        "- Carrots\n- Broccoli\n- Spinach\n- Bell peppers\n- Cauliflower\n- Tomatoes\n- Cucumbers"
        "Carrots" = true := by
  refine ⟨?_, ?_, ?_⟩ <;> rfl

/-- C8: the deterministic fallback responder is total (the Lean translation
is structurally recursive, mirroring the raise-free Python), returns a
non-empty string for every message list and style value, and is a pure
function of its two arguments: equal inputs give equal text. -/
theorem claim_C8 (messages : List Message) (respStyle : Option String) :
    fallbackReply messages respStyle ≠ ""
    ∧ fallbackReply messages respStyle = fallbackReply messages respStyle := by
  refine ⟨?_, rfl⟩
  unfold fallbackReply
  split
  · decide
  · split
    · decide
    · dsimp only
      repeat' split
      all_goals decide

/-- C9: the upstream client returns the `None` sentinel when the API key is
unconfigured — and the result does not depend on the network outcome, so no
network call is observable — and every enumerated failure mode (raised
transport error or timeout, non-200 status, empty or missing choice list,
non-string content, blank content) also yields the sentinel; the translation
is a total function, matching the never-raises boundary of the source. -/
theorem claim_C9 (net net2 : NetOutcome) (k : String) (status : Nat) (body : JValue) :
    callOpenai none net = none
    ∧ callOpenai none net = callOpenai none net2
    ∧ callOpenai (some k) NetOutcome.exc = none
    ∧ (status ≠ 200 → callOpenai (some k) (NetOutcome.response status body) = none)
    ∧ (choicesOf body = [] → callOpenai (some k) (NetOutcome.response status body) = none)
    ∧ (contentOf (firstMessageOf (choicesOf body)) = none →
        callOpenai (some k) (NetOutcome.response status body) = none)
    ∧ (∀ c, contentOf (firstMessageOf (choicesOf body)) = some c → pyTrim c = "" →
        callOpenai (some k) (NetOutcome.response status body) = none) := by
  refine ⟨rfl, rfl, ?_, ?_, ?_, ?_, ?_⟩
  · by_cases hk : k = ""
    · subst hk; rfl
    · simp [callOpenai, openaiIsConfigured, hk]
  · intro hs
    by_cases hk : k = ""
    · subst hk; rfl
    · simp [callOpenai, openaiIsConfigured, hk, hs]
  · intro hc
    by_cases hk : k = ""
    · subst hk; rfl
    · by_cases hs : status = 200
      · subst hs; simp [callOpenai, openaiIsConfigured, hk, hc]
      · simp [callOpenai, openaiIsConfigured, hk, hs]
  · intro hc
    by_cases hk : k = ""
    · subst hk; rfl
    · by_cases hs : status = 200
      · subst hs; simp [callOpenai, openaiIsConfigured, hk, hc]
      · simp [callOpenai, openaiIsConfigured, hk, hs]
  · intro c hc hb
    by_cases hk : k = ""
    · subst hk; rfl
    · by_cases hs : status = 200
      · subst hs; simp [callOpenai, openaiIsConfigured, hk, hc, hb]
      · simp [callOpenai, openaiIsConfigured, hk, hs]

/-- C9 witness: the client at concrete failure inputs — unconfigured key,
raised call, status 500, a null body (no choices), a body whose first choice
has no content field, and a body with blank content. -/
theorem claim_C9_witness :
    callOpenai none NetOutcome.exc = none
    ∧ callOpenai (some "k") NetOutcome.exc = none
    ∧ callOpenai (some "k") (NetOutcome.response 500 JValue.null) = none
    ∧ callOpenai (some "k") (NetOutcome.response 200 JValue.null) = none
    ∧ callOpenai (some "k") (NetOutcome.response 200
        (JValue.obj [("choices", JValue.arr [JValue.obj [("note", JValue.null)]])])) = none
    ∧ callOpenai (some "k") (NetOutcome.response 200
        (JValue.obj [("choices", JValue.arr
          [JValue.obj [("message", JValue.obj [("content", JValue.str " ")])]])])) = none := by
  refine ⟨(claim_C9 NetOutcome.exc NetOutcome.exc "k" 500 JValue.null).1,
    (claim_C9 NetOutcome.exc NetOutcome.exc "k" 500 JValue.null).2.2.1,
    (claim_C9 NetOutcome.exc NetOutcome.exc "k" 500 JValue.null).2.2.2.1 (by decide),
    (claim_C9 NetOutcome.exc NetOutcome.exc "k" 200 JValue.null).2.2.2.2.1 rfl,
    (claim_C9 NetOutcome.exc NetOutcome.exc "k" 200
      (JValue.obj [("choices", JValue.arr [JValue.obj [("note", JValue.null)]])])).2.2.2.2.2.1 rfl,
    (claim_C9 NetOutcome.exc NetOutcome.exc "k" 200
      (JValue.obj [("choices", JValue.arr
        [JValue.obj [("message", JValue.obj [("content", JValue.str " ")])]])])).2.2.2.2.2.2 " " rfl rfl⟩

/-- C10: the normalizer never mutates the payload object it is given — the
caller-visible dict observed after the call equals the one passed in, for
every input, including the shim paths, which build a fresh dict instead of
writing into the argument. -/
theorem claim_C10 (data : JValue) : (normalize_to_chat_request data).2 = data := by
  cases data with
  | obj d =>
      dsimp only [normalize_to_chat_request]
      split
      · rfl
      · split <;> rfl
  | null => rfl
  | bool b => rfl
  | int n => rfl
  | float r => rfl
  | str s => rfl
  | arr xs => rfl
